import Mathlib

/-!
Shallow embedding of the `bag_digital_ec` repository.

Source files modelled:
- `src/BagModules/digital_ec_templates/inv.py`: the schematic design module
  `digital_ec_templates__inv`, in particular its `design_specs` method
  (parameter storage, even-finger validation, dummy-finger balancing, and the
  four sub-instance design calls).
- `src/digital_ec/layout/stdcells/core.py`: the layout generator classes
  `StdCellWrapper`, `StdLaygoTemplate` and `StdCellTap` (parameter info and
  default dictionaries, the `setup_floorplan` row validation, and the column
  rounding in `StdCellWrapper.draw_layout`).

Python integers are modelled as `Int`; the Python floor division `//` is
`Int.fdiv` and the Python remainder `%` (with positive modulus) is `Int.emod`,
which agrees with Python on negative operands.  Heterogeneous Python values
(floats, strings, `None`, host objects) that the code merely passes through
are modelled by the inductive type `PValue`; an opaque host object is
`PValue.objV`.  Python dictionaries holding such values are association lists
with `dictGet`/`dictSet` implementing lookup and overwrite-or-append
assignment.  A Python `raise` aborting a method is modelled with `Except`;
mutation of `self.parameters` that happens before a `raise` is recorded by
returning the updated table alongside the `Except` result.
-/

/-- A Python runtime value as far as this repository manipulates them:
`None`, an int, a bool, a string, or an opaque object (e.g. a float or a
host-framework handle) that the code only passes along unchanged. -/
inductive PValue : Type
  | pyNone : PValue
  | intV : Int → PValue
  | boolV : Bool → PValue
  | strV : String → PValue
  | objV : Nat → PValue
deriving DecidableEq, Repr

/-- Python dictionary lookup `d[k]` on a string-keyed association list,
returning `Option.none` when the key is absent. -/
def dictGet : List (String × PValue) → String → Option PValue
  | [], _ => Option.none
  | kv :: rest, k => if kv.1 = k then Option.some kv.2 else dictGet rest k

/-- Python dictionary assignment `d[k] = v`: overwrite the binding of an
existing key, append a new binding otherwise. -/
def dictSet : List (String × PValue) → String → PValue → List (String × PValue)
  | [], k, v => [(k, v)]
  | kv :: rest, k, v => if kv.1 = k then (k, v) :: rest else kv :: dictSet rest k v

/-- `digital_ec_templates__inv.param_list` from `inv.py`. -/
def param_list : List String :=
  ["lch", "wp", "wn", "fgp", "fgn", "nduml", "ndumr", "intent"]

/-- The parameter table set up by `digital_ec_templates__inv.__init__`:
every parameter of `param_list` is bound to Python `None`. -/
def init_parameters : List (String × PValue) :=
  param_list.map (fun p => (p, PValue.pyNone))

/-- The `locals()` dictionary captured at the start of `design_specs`: the
bound method arguments (`self` and `**kwargs` are locals too, modelled as
opaque objects). -/
def localDict (lch wp wn : PValue) (fgp fgn nduml ndumr : Int) (intent : String) :
    List (String × PValue) :=
  [("self", PValue.objV 0), ("lch", lch), ("wp", wp), ("wn", wn),
   ("fgp", PValue.intV fgp), ("fgn", PValue.intV fgn),
   ("nduml", PValue.intV nduml), ("ndumr", PValue.intV ndumr),
   ("intent", PValue.strV intent), ("kwargs", PValue.objV 1)]

/-- A Python exception raised by `design_specs`: either the generic
`Exception` for a missing parameter, or a `ValueError`. -/
inductive PyError : Type
  | exc : String → PyError
  | valueError : String → PyError
deriving DecidableEq, Repr

/-- The `for par in self.param_list` loop of `design_specs`: for each
parameter name, raise the generic exception when the name is not a local,
otherwise store the local value into `self.parameters`.  Returns the
parameter table as updated so far together with the raised error, if any. -/
def storeParams (ld : List (String × PValue)) (pars : List String)
    (ps : List (String × PValue)) : List (String × PValue) × Option PyError :=
  match pars with
  | [] => (ps, Option.none)
  | par :: rest =>
    match dictGet ld par with
    | Option.none => (ps, Option.some (PyError.exc ("Parameter " ++ par ++ " not defined")))
    | Option.some v => storeParams ld rest (dictSet ps par v)

/-- One `self.instances[inst].design(w=, l=, nf=, intent=)` call made by
`design_specs`. -/
structure DesignCall where
  inst : String
  w : PValue
  l : PValue
  nf : Int
  intent : String
deriving DecidableEq, Repr

/-- The local quantities `design_specs` computes after validation. -/
structure InvInternals where
  fg_tot : Int
  p_nduml : Int
  p_ndumr : Int
  n_nduml : Int
  n_ndumr : Int
deriving DecidableEq, Repr

/-- The observable outcome of a `design_specs` call: the parameter table
`self.parameters` after the call (also when the call raises), the
sub-instance design calls actually executed, and either the computed
internals or the raised exception. -/
structure InvDesignOutcome where
  parameters : List (String × PValue)
  calls : List DesignCall
  result : Except PyError InvInternals
deriving Repr

/-- The four sub-instance design calls at the end of `design_specs`, in
program order: XP, XDP, XN, XDN. -/
def invCalls (lch wp wn : PValue) (fgp fgn : Int) (intent : String)
    (p_nduml p_ndumr n_nduml n_ndumr : Int) : List DesignCall :=
  [⟨"XP", wp, lch, fgp, intent⟩,
   ⟨"XDP", wp, lch, p_nduml + p_ndumr, intent⟩,
   ⟨"XN", wn, lch, fgn, intent⟩,
   ⟨"XDN", wn, lch, n_nduml + n_ndumr, intent⟩]

/-- `digital_ec_templates__inv.design_specs` from `inv.py`: store all
parameters of `param_list` from the locals into `self.parameters` (raising
the generic exception for a missing one), then raise `ValueError` when a
finger count is odd, then split the dummies between the PMOS and NMOS rows
and issue the four sub-instance design calls. -/
def design_specs (parameters0 : List (String × PValue)) (lch wp wn : PValue)
    (fgp fgn nduml ndumr : Int) (intent : String) : InvDesignOutcome :=
  match storeParams (localDict lch wp wn fgp fgn nduml ndumr intent) param_list parameters0 with
  | (ps, Option.some e) => ⟨ps, [], Except.error e⟩
  | (ps, Option.none) =>
    if fgp % 2 = 1 ∨ fgn % 2 = 1 then
      ⟨ps, [], Except.error (PyError.valueError
        "Only even number of pmos/nmos fingers are supported.")⟩
    else
      let delta : Int := |fgp - fgn|
      if fgp > fgn then
        let fg_tot := fgp + nduml + ndumr
        let p_nduml := nduml
        let p_ndumr := ndumr
        let n_nduml := nduml + delta.fdiv 2
        let n_ndumr := ndumr + delta.fdiv 2
        ⟨ps, invCalls lch wp wn fgp fgn intent p_nduml p_ndumr n_nduml n_ndumr,
          Except.ok ⟨fg_tot, p_nduml, p_ndumr, n_nduml, n_ndumr⟩⟩
      else
        let fg_tot := fgn + nduml + ndumr
        let n_nduml := nduml
        let n_ndumr := ndumr
        let p_nduml := nduml + delta.fdiv 2
        let p_ndumr := ndumr + delta.fdiv 2
        ⟨ps, invCalls lch wp wn fgp fgn intent p_nduml p_ndumr n_nduml n_ndumr,
          Except.ok ⟨fg_tot, p_nduml, p_ndumr, n_nduml, n_ndumr⟩⟩

lemma storeParams_eq (ps0 : List (String × PValue)) (lch wp wn : PValue)
    (fgp fgn nduml ndumr : Int) (intent : String) :
    storeParams (localDict lch wp wn fgp fgn nduml ndumr intent) param_list ps0 =
      (dictSet (dictSet (dictSet (dictSet (dictSet (dictSet (dictSet (dictSet
        ps0 "lch" lch) "wp" wp) "wn" wn) "fgp" (PValue.intV fgp))
        "fgn" (PValue.intV fgn)) "nduml" (PValue.intV nduml))
        "ndumr" (PValue.intV ndumr)) "intent" (PValue.strV intent),
       Option.none) := by
  rfl

lemma dictGet_dictSet_self (ps : List (String × PValue)) (k : String) (v : PValue) :
    dictGet (dictSet ps k v) k = Option.some v := by
  induction ps with
  | nil => simp [dictGet, dictSet]
  | cons kv rest ih =>
    by_cases h : kv.1 = k
    · simp [dictSet, h, dictGet]
    · simp [dictSet, h, dictGet, ih]

lemma dictGet_dictSet_ne (ps : List (String × PValue)) (k k2 : String) (v : PValue)
    (h : ¬k2 = k) : dictGet (dictSet ps k2 v) k = dictGet ps k := by
  induction ps with
  | nil => simp [dictGet, dictSet, h]
  | cons kv rest ih =>
    by_cases hk : kv.1 = k2
    · simp [dictSet, hk, dictGet, h]
    · simp only [dictSet, hk, if_false, dictGet, ih]

/-- `StdCellWrapper.get_params_info` from `core.py`. -/
def StdCellWrapper.get_params_info : List (String × String) :=
  [("module", "standard cell module name."),
   ("class", "standard cell class name."),
   ("params", "standard cell layout parameters."),
   ("guard_ring_nf", "number of guard rings in boundary.")]

/-- `StdCellWrapper.get_default_param_values` from `core.py`. -/
def StdCellWrapper.get_default_param_values : List (String × PValue) :=
  [("guard_ring_nf", PValue.intV 0)]

/-- `StdCellTap.get_params_info` from `core.py`. -/
def StdCellTap.get_params_info : List (String × String) :=
  [("config", "laygo configuration dictionary."),
   ("row_layout_info", "Row layout information dictionary."),
   ("show_pins", "True to draw pin geometries.")]

/-- `StdCellTap.get_default_param_values` from `core.py`. -/
def StdCellTap.get_default_param_values : List (String × PValue) :=
  [("row_layout_info", PValue.pyNone), ("show_pins", PValue.boolV true)]

/-- The entries of the laygo `config` dictionary that
`StdLaygoTemplate.setup_floorplan` reads.  Track counts are integers; the row
widths and `row_kwargs` are passed through unchanged and kept opaque. -/
structure StdCellConfig where
  tr_w_supply : Int
  wp : PValue
  wn : PValue
  thp : String
  thn : String
  row_kwargs : PValue
  ng_tracks : List Int
  ngb_tracks : List Int
  nds_tracks : List Int
  sub_w_list : Option (List Int)
deriving Repr

/-- The supply-space track increment of `setup_floorplan`, given the value
`rounded` of the host-grid expression `int(round(2 * sp_sup + tr_w_sup))`
(the grid call `get_num_space_tracks` lives in the host framework, outside
this repository, so its rounded result is a parameter here): halve it with
integer division when even and with exact (float) division when odd. -/
def computeInc (rounded : Int) : ℚ :=
  if rounded % 2 = 0 then ((rounded.fdiv 2 : Int) : ℚ) else (rounded : ℚ) / 2

/-- Which host-framework row-setup call `setup_floorplan` performed: either
`set_rows_direct` (when row layout information was given) or
`set_row_types` with the row lists it builds. -/
inductive FloorplanResult : Type
  | rowsDirect : Int → FloorplanResult
  | rowTypes : List String → List PValue → List String → List String →
      List Int → List ℚ → List ℚ → Int → FloorplanResult

/-- `StdLaygoTemplate.setup_floorplan` from `core.py`, reduced to its control
flow and computed row data: with row layout information present it calls
`set_rows_direct`; otherwise it validates that the three track-count lists
of the config have length two (raising `ValueError` when not) and calls
`set_row_types` with rows `nch, pch`, widths `[wn, wp]`, orientations
`[MX, R0]`, thresholds `[thn, thp]`, and the gb/ds track counts increased by
the supply increment. -/
def setup_floorplan (config : StdCellConfig) (row_layout_info : Option PValue)
    (num_col : Int) (rounded : Int) : Except PyError FloorplanResult :=
  match row_layout_info with
  | Option.some _ => Except.ok (FloorplanResult.rowsDirect num_col)
  | Option.none =>
    if config.ng_tracks.length ≠ 2 ∨ config.ngb_tracks.length ≠ 2 ∨
        config.nds_tracks.length ≠ 2 then
      Except.error (PyError.valueError
        "Standard cell must have two rows, NMOS followed by PMOS.")
    else
      let inc := computeInc rounded
      Except.ok (FloorplanResult.rowTypes ["nch", "pch"] [config.wn, config.wp]
        ["MX", "R0"] [config.thn, config.thp] config.ng_tracks
        (config.ngb_tracks.map (fun ntr => (ntr : ℚ) + inc))
        (config.nds_tracks.map (fun ntr => (ntr : ℚ) + inc)) num_col)

/-- The arguments `StdCellWrapper.draw_layout` passes to `self.initialize`. -/
structure InitializeCall where
  num_rows : Int
  num_cols : Int
  draw_boundaries : Bool
  end_mode : Int
  guard_ring_nf : Int
deriving DecidableEq, Repr

/-- The `initialize` call of `StdCellWrapper.draw_layout` from `core.py`:
`num_cols = -(-master.num_cols // 2) * 2` (Python floor division), the row
count is the second component of the digital size of the master, boundaries
are drawn with end mode 15 and the given guard ring count. -/
def StdCellWrapper.draw_layout_initialize (master_num_cols digital_size_1
    guard_ring_nf : Int) : InitializeCall :=
  ⟨digital_size_1, -((-master_num_cols).fdiv 2) * 2, true, 15, guard_ring_nf⟩

/-- C1: for every call to `design_specs` with non-negative even integers
`fgp` and `fgn` and non-negative integers `nduml` and `ndumr`, the call
succeeds and the computed total finger count `fg_tot` equals
`max fgp fgn + nduml + ndumr`. -/
theorem design_specs_fg_tot (ps0 : List (String × PValue)) (lch wp wn : PValue)
    (fgp fgn nduml ndumr : Int) (intent : String)
    (hpe : fgp % 2 = 0) (hne : fgn % 2 = 0) (hp0 : 0 ≤ fgp) (hn0 : 0 ≤ fgn)
    (hdl : 0 ≤ nduml) (hdr : 0 ≤ ndumr) :
    ∃ i, (design_specs ps0 lch wp wn fgp fgn nduml ndumr intent).result = Except.ok i ∧
      i.fg_tot = max fgp fgn + nduml + ndumr := by
  unfold design_specs
  rw [storeParams_eq]
  dsimp only
  rw [if_neg (by omega : ¬(fgp % 2 = 1 ∨ fgn % 2 = 1))]
  by_cases hgt : fgp > fgn
  · rw [if_pos hgt]
    exact ⟨_, rfl, by dsimp only; omega⟩
  · rw [if_neg hgt]
    exact ⟨_, rfl, by dsimp only; omega⟩

theorem design_specs_fg_tot_witness :
    ∃ i, (design_specs init_parameters (PValue.objV 2) (PValue.objV 3) (PValue.objV 4)
        6 4 1 2 "standard").result = Except.ok i ∧
      i.fg_tot = max (6 : Int) 4 + 1 + 2 :=
  design_specs_fg_tot init_parameters (PValue.objV 2) (PValue.objV 3) (PValue.objV 4)
    6 4 1 2 "standard" (by decide) (by decide) (by decide) (by decide) (by decide) (by decide)

/-- C2: for every call to `design_specs` with non-negative even integers
`fgp` and `fgn`, the device with the larger finger count receives exactly
the base dummy counts and the device with the smaller finger count receives
the base dummy counts plus half the absolute finger-count difference on
each side. -/
theorem design_specs_dummy_split (ps0 : List (String × PValue)) (lch wp wn : PValue)
    (fgp fgn nduml ndumr : Int) (intent : String)
    (hpe : fgp % 2 = 0) (hne : fgn % 2 = 0) (hp0 : 0 ≤ fgp) (hn0 : 0 ≤ fgn) :
    ∃ i, (design_specs ps0 lch wp wn fgp fgn nduml ndumr intent).result = Except.ok i ∧
      (fgp > fgn → i.p_nduml = nduml ∧ i.p_ndumr = ndumr ∧
        i.n_nduml = nduml + |fgp - fgn| / 2 ∧ i.n_ndumr = ndumr + |fgp - fgn| / 2) ∧
      (fgn > fgp → i.n_nduml = nduml ∧ i.n_ndumr = ndumr ∧
        i.p_nduml = nduml + |fgp - fgn| / 2 ∧ i.p_ndumr = ndumr + |fgp - fgn| / 2) := by
  unfold design_specs
  rw [storeParams_eq]
  dsimp only
  rw [if_neg (by omega : ¬(fgp % 2 = 1 ∨ fgn % 2 = 1))]
  by_cases hgt : fgp > fgn
  · rw [if_pos hgt]
    refine ⟨_, rfl, fun _ => ?_, fun h => absurd hgt (by omega)⟩
    dsimp only
    rw [Int.fdiv_eq_ediv _ (by norm_num)]
    exact ⟨rfl, rfl, rfl, rfl⟩
  · rw [if_neg hgt]
    refine ⟨_, rfl, fun h => absurd h hgt, fun h => ?_⟩
    dsimp only
    rw [Int.fdiv_eq_ediv _ (by norm_num)]
    exact ⟨rfl, rfl, rfl, rfl⟩

theorem design_specs_dummy_split_witness :
    ∃ i, (design_specs init_parameters (PValue.objV 2) (PValue.objV 3) (PValue.objV 4)
        2 6 1 2 "standard").result = Except.ok i ∧
      ((2 : Int) > 6 → i.p_nduml = 1 ∧ i.p_ndumr = 2 ∧
        i.n_nduml = 1 + |(2 : Int) - 6| / 2 ∧ i.n_ndumr = 2 + |(2 : Int) - 6| / 2) ∧
      ((6 : Int) > 2 → i.n_nduml = 1 ∧ i.n_ndumr = 2 ∧
        i.p_nduml = 1 + |(2 : Int) - 6| / 2 ∧ i.p_ndumr = 2 + |(2 : Int) - 6| / 2) :=
  design_specs_dummy_split init_parameters (PValue.objV 2) (PValue.objV 3) (PValue.objV 4)
    2 6 1 2 "standard" (by decide) (by decide) (by decide) (by decide)

/-- C3: for every call to `design_specs` with non-negative even integers
`fgp` and `fgn`, the dummy split balances the two devices: the PMOS active
fingers plus PMOS dummy fingers and the NMOS active fingers plus NMOS dummy
fingers both equal the total finger count `fg_tot`. -/
theorem design_specs_finger_balance (ps0 : List (String × PValue)) (lch wp wn : PValue)
    (fgp fgn nduml ndumr : Int) (intent : String)
    (hpe : fgp % 2 = 0) (hne : fgn % 2 = 0) (hp0 : 0 ≤ fgp) (hn0 : 0 ≤ fgn) :
    ∃ i, (design_specs ps0 lch wp wn fgp fgn nduml ndumr intent).result = Except.ok i ∧
      fgp + i.p_nduml + i.p_ndumr = i.fg_tot ∧ fgn + i.n_nduml + i.n_ndumr = i.fg_tot := by
  unfold design_specs
  rw [storeParams_eq]
  dsimp only
  rw [if_neg (by omega : ¬(fgp % 2 = 1 ∨ fgn % 2 = 1))]
  by_cases hgt : fgp > fgn
  · rw [if_pos hgt]
    refine ⟨_, rfl, ?_⟩
    dsimp only
    rw [Int.fdiv_eq_ediv _ (by norm_num), abs_of_nonneg (by omega : (0 : Int) ≤ fgp - fgn)]
    omega
  · rw [if_neg hgt]
    refine ⟨_, rfl, ?_⟩
    dsimp only
    rw [Int.fdiv_eq_ediv _ (by norm_num), abs_of_nonpos (by omega : fgp - fgn ≤ 0)]
    omega

theorem design_specs_finger_balance_witness :
    ∃ i, (design_specs init_parameters (PValue.objV 2) (PValue.objV 3) (PValue.objV 4)
        4 8 2 1 "standard").result = Except.ok i ∧
      (4 : Int) + i.p_nduml + i.p_ndumr = i.fg_tot ∧
      (8 : Int) + i.n_nduml + i.n_ndumr = i.fg_tot :=
  design_specs_finger_balance init_parameters (PValue.objV 2) (PValue.objV 3) (PValue.objV 4)
    4 8 2 1 "standard" (by decide) (by decide) (by decide) (by decide)

/-- C4: `design_specs` raises `ValueError` if and only if `fgp` is odd or
`fgn` is odd (Python `% 2 == 1`, which agrees with `Int.emod`); for even
`fgp` and `fgn` no `ValueError` is raised, regardless of the other
parameters. -/
theorem design_specs_valueError_iff_odd (ps0 : List (String × PValue))
    (lch wp wn : PValue) (fgp fgn nduml ndumr : Int) (intent : String) :
    (∃ msg, (design_specs ps0 lch wp wn fgp fgn nduml ndumr intent).result =
      Except.error (PyError.valueError msg)) ↔ (fgp % 2 = 1 ∨ fgn % 2 = 1) := by
  unfold design_specs
  rw [storeParams_eq]
  dsimp only
  by_cases hodd : fgp % 2 = 1 ∨ fgn % 2 = 1
  · rw [if_pos hodd]
    exact iff_of_true ⟨_, rfl⟩ hodd
  · rw [if_neg hodd]
    by_cases hgt : fgp > fgn
    · rw [if_pos hgt]
      simp [hodd]
    · rw [if_neg hgt]
      simp [hodd]

/-- C5: the generic missing-parameter exception of `design_specs` is never
raised: every parameter of `param_list` is a bound argument of the method,
hence present in `locals()`, so no call ever produces the generic
`Exception`. -/
theorem design_specs_no_missing_param_exc (ps0 : List (String × PValue))
    (lch wp wn : PValue) (fgp fgn nduml ndumr : Int) (intent msg : String) :
    (design_specs ps0 lch wp wn fgp fgn nduml ndumr intent).result ≠
      Except.error (PyError.exc msg) := by
  unfold design_specs
  rw [storeParams_eq]
  dsimp only
  by_cases hodd : fgp % 2 = 1 ∨ fgn % 2 = 1
  · rw [if_pos hodd]
    simp
  · rw [if_neg hodd]
    by_cases hgt : fgp > fgn
    · rw [if_pos hgt]
      simp
    · rw [if_neg hgt]
      simp

/-- C6: when `design_specs` raises because `fgp` or `fgn` is odd, no
sub-instance design call (XP, XDP, XN, XDN) is executed and the
`ValueError` propagates to the caller. -/
theorem design_specs_odd_aborts (ps0 : List (String × PValue)) (lch wp wn : PValue)
    (fgp fgn nduml ndumr : Int) (intent : String)
    (h : fgp % 2 = 1 ∨ fgn % 2 = 1) :
    (design_specs ps0 lch wp wn fgp fgn nduml ndumr intent).calls = [] ∧
    ∃ msg, (design_specs ps0 lch wp wn fgp fgn nduml ndumr intent).result =
      Except.error (PyError.valueError msg) := by
  unfold design_specs
  rw [storeParams_eq]
  dsimp only
  rw [if_pos h]
  exact ⟨rfl, _, rfl⟩

theorem design_specs_odd_aborts_witness :
    (design_specs init_parameters (PValue.objV 2) (PValue.objV 3) (PValue.objV 4)
      3 2 0 0 "standard").calls = [] ∧
    ∃ msg, (design_specs init_parameters (PValue.objV 2) (PValue.objV 3) (PValue.objV 4)
      3 2 0 0 "standard").result = Except.error (PyError.valueError msg) :=
  design_specs_odd_aborts init_parameters (PValue.objV 2) (PValue.objV 3) (PValue.objV 4)
    3 2 0 0 "standard" (by decide)

/-- C7: `design_specs` is not atomic on error: when it raises `ValueError`
for an odd finger count, all eight entries of `self.parameters` have already
been overwritten with the new argument values. -/
theorem design_specs_overwrites_params (ps0 : List (String × PValue))
    (lch wp wn : PValue) (fgp fgn nduml ndumr : Int) (intent : String)
    (h : fgp % 2 = 1 ∨ fgn % 2 = 1) :
    (∃ msg, (design_specs ps0 lch wp wn fgp fgn nduml ndumr intent).result =
      Except.error (PyError.valueError msg)) ∧
    dictGet (design_specs ps0 lch wp wn fgp fgn nduml ndumr intent).parameters "lch" =
      Option.some lch ∧
    dictGet (design_specs ps0 lch wp wn fgp fgn nduml ndumr intent).parameters "wp" =
      Option.some wp ∧
    dictGet (design_specs ps0 lch wp wn fgp fgn nduml ndumr intent).parameters "wn" =
      Option.some wn ∧
    dictGet (design_specs ps0 lch wp wn fgp fgn nduml ndumr intent).parameters "fgp" =
      Option.some (PValue.intV fgp) ∧
    dictGet (design_specs ps0 lch wp wn fgp fgn nduml ndumr intent).parameters "fgn" =
      Option.some (PValue.intV fgn) ∧
    dictGet (design_specs ps0 lch wp wn fgp fgn nduml ndumr intent).parameters "nduml" =
      Option.some (PValue.intV nduml) ∧
    dictGet (design_specs ps0 lch wp wn fgp fgn nduml ndumr intent).parameters "ndumr" =
      Option.some (PValue.intV ndumr) ∧
    dictGet (design_specs ps0 lch wp wn fgp fgn nduml ndumr intent).parameters "intent" =
      Option.some (PValue.strV intent) := by
  unfold design_specs
  rw [storeParams_eq]
  dsimp only
  rw [if_pos h]
  refine ⟨⟨_, rfl⟩, ?_, ?_, ?_, ?_, ?_, ?_, ?_, ?_⟩ <;>
    simp [dictGet_dictSet_self, dictGet_dictSet_ne]

theorem design_specs_overwrites_params_witness :
    (∃ msg, (design_specs init_parameters (PValue.objV 5) (PValue.objV 6) (PValue.objV 7)
      2 5 1 1 "lvt").result = Except.error (PyError.valueError msg)) ∧
    dictGet (design_specs init_parameters (PValue.objV 5) (PValue.objV 6) (PValue.objV 7)
      2 5 1 1 "lvt").parameters "lch" = Option.some (PValue.objV 5) ∧
    dictGet (design_specs init_parameters (PValue.objV 5) (PValue.objV 6) (PValue.objV 7)
      2 5 1 1 "lvt").parameters "wp" = Option.some (PValue.objV 6) ∧
    dictGet (design_specs init_parameters (PValue.objV 5) (PValue.objV 6) (PValue.objV 7)
      2 5 1 1 "lvt").parameters "wn" = Option.some (PValue.objV 7) ∧
    dictGet (design_specs init_parameters (PValue.objV 5) (PValue.objV 6) (PValue.objV 7)
      2 5 1 1 "lvt").parameters "fgp" = Option.some (PValue.intV 2) ∧
    dictGet (design_specs init_parameters (PValue.objV 5) (PValue.objV 6) (PValue.objV 7)
      2 5 1 1 "lvt").parameters "fgn" = Option.some (PValue.intV 5) ∧
    dictGet (design_specs init_parameters (PValue.objV 5) (PValue.objV 6) (PValue.objV 7)
      2 5 1 1 "lvt").parameters "nduml" = Option.some (PValue.intV 1) ∧
    dictGet (design_specs init_parameters (PValue.objV 5) (PValue.objV 6) (PValue.objV 7)
      2 5 1 1 "lvt").parameters "ndumr" = Option.some (PValue.intV 1) ∧
    dictGet (design_specs init_parameters (PValue.objV 5) (PValue.objV 6) (PValue.objV 7)
      2 5 1 1 "lvt").parameters "intent" = Option.some (PValue.strV "lvt") :=
  design_specs_overwrites_params init_parameters (PValue.objV 5) (PValue.objV 6) (PValue.objV 7)
    2 5 1 1 "lvt" (by decide)

/-- C8: the layout generator classes provide `get_params_info` and
`get_default_param_values`; `StdCellWrapper.get_default_param_values` is
exactly the one-entry dictionary mapping `guard_ring_nf` to `0`, and
`StdCellTap.get_default_param_values` is exactly the dictionary mapping
`row_layout_info` to `None` and `show_pins` to `True`. -/
theorem layout_param_info_defaults :
    StdCellWrapper.get_params_info.map Prod.fst =
      ["module", "class", "params", "guard_ring_nf"] ∧
    StdCellWrapper.get_default_param_values = [("guard_ring_nf", PValue.intV 0)] ∧
    StdCellTap.get_params_info.map Prod.fst =
      ["config", "row_layout_info", "show_pins"] ∧
    StdCellTap.get_default_param_values =
      [("row_layout_info", PValue.pyNone), ("show_pins", PValue.boolV true)] := by
  exact ⟨rfl, rfl, rfl, rfl⟩

/-- C9: `StdLaygoTemplate.setup_floorplan` raises the `ValueError` about the
two-row requirement exactly when `row_layout_info` is `None` and one of the
track-count lists `ng_tracks`, `ngb_tracks`, `nds_tracks` of the config does
not have length two; with `row_layout_info` given, that validation is
skipped entirely. -/
theorem setup_floorplan_valueError_iff (config : StdCellConfig)
    (row_layout_info : Option PValue) (num_col rounded : Int) :
    (∃ msg, setup_floorplan config row_layout_info num_col rounded =
      Except.error (PyError.valueError msg)) ↔
    (row_layout_info = Option.none ∧ (config.ng_tracks.length ≠ 2 ∨
      config.ngb_tracks.length ≠ 2 ∨ config.nds_tracks.length ≠ 2)) := by
  cases row_layout_info with
  | some info => simp [setup_floorplan]
  | none =>
    by_cases h : config.ng_tracks.length ≠ 2 ∨ config.ngb_tracks.length ≠ 2 ∨
      config.nds_tracks.length ≠ 2
    · rw [setup_floorplan, if_pos h]
      exact iff_of_true ⟨_, rfl⟩ ⟨rfl, h⟩
    · rw [setup_floorplan, if_neg h]
      simp [h]

/-- C10: in `StdCellWrapper.draw_layout`, the column count passed to
`initialize` is the master column count rounded up to the nearest even
integer: it is even, at least the master column count, and at most the
master column count plus one. -/
theorem wrapper_num_cols_round_up (master_num_cols digital_size_1 guard_ring_nf : Int)
    (h : 0 ≤ master_num_cols) :
    (StdCellWrapper.draw_layout_initialize master_num_cols digital_size_1
        guard_ring_nf).num_cols % 2 = 0 ∧
    master_num_cols ≤ (StdCellWrapper.draw_layout_initialize master_num_cols
        digital_size_1 guard_ring_nf).num_cols ∧
    (StdCellWrapper.draw_layout_initialize master_num_cols digital_size_1
        guard_ring_nf).num_cols ≤ master_num_cols + 1 := by
  unfold StdCellWrapper.draw_layout_initialize
  dsimp only
  rw [Int.fdiv_eq_ediv _ (by norm_num)]
  omega

theorem wrapper_num_cols_round_up_witness :
    (StdCellWrapper.draw_layout_initialize 7 1 0).num_cols % 2 = 0 ∧
    (7 : Int) ≤ (StdCellWrapper.draw_layout_initialize 7 1 0).num_cols ∧
    (StdCellWrapper.draw_layout_initialize 7 1 0).num_cols ≤ 7 + 1 :=
  wrapper_num_cols_round_up 7 1 0 (by decide)
